import Mathlib

/-!
Verification of the kolide/launcher presence-detection and macOS software-update
bridge layer, against its header declarations under src/ and the accompanying
design specification.

The repository ships three C headers:
  * src/ee/presencedetection/auth.h — `struct AuthResult` and
    `Authenticate(reason, timeout_ns)`;
  * src/ee/tables/macos_software_update/sus.h — the ee-version callback surface
    (`updatesFound`, `updateKeyValueFound`) and
    `getSoftwareUpdateConfiguration` with 11 out-parameters;
  * src/pkg/osquery/tables/macos_software_update/sus.h — the pkg-version
    callback surface (adds `productsFound`, `productKeyValueFound`,
    `productNestedKeyValueFound`) and `getSoftwareUpdateConfiguration`
    with 7 out-parameters.
The bodies of the bridge functions are not part of src/, so their behaviour is
modelled from the specification; every such definition is marked
`Modelled from the spec:` in its doc comment. Data shapes and callback
signatures are taken from the headers.
-/

/-- `struct AuthResult` from src/ee/presencedetection/auth.h:
`bool success; char* error_msg; int error_code;`. -/
structure AuthResult where
  success : Bool
  error_msg : String
  error_code : Int
deriving Repr, DecidableEq

/-- Modelled from the spec: the outcome triple produced by the native
authentication call (`authenticate(reason, timeoutHint) ->
(success, errorMessage, errorCode)`); the native layer's implementation is not
under src/. A successful native outcome carries no diagnostic; a failed one
carries a message and a code. -/
inductive NativeOutcome where
  | ok : NativeOutcome
  | failure (msg : String) (code : Int) : NativeOutcome
deriving Repr, DecidableEq

/-- Modelled from the spec: the distinguished timeout sentinel code
"reserved by this component (never reused by the native layer)";
the Authenticate implementation is not under src/. -/
def timeoutCode : Int := -1

/-- Modelled from the spec: the timeout diagnostic
"authentication timed out"; the Authenticate implementation is not
under src/. -/
def timeoutMessage : String := "authentication timed out"

/-- Modelled from the spec: the dedicated error code for a precondition
violation (invalid caller input, no native call attempted); the Authenticate
implementation is not under src/. -/
def preconditionCode : Int := -2

/-- Modelled from the spec: the diagnostic for a precondition violation;
the Authenticate implementation is not under src/. -/
def preconditionMessage : String := "invalid authentication request"

/-- Modelled from the spec: how a native outcome is propagated "verbatim"
into an `AuthResult`; the Authenticate implementation is not under src/. -/
def nativeToResult : NativeOutcome → AuthResult
  | NativeOutcome.ok => ⟨true, "", 0⟩
  | NativeOutcome.failure m c => ⟨false, m, c⟩

/-- The spec's reservation assumption on the native layer: the timeout
sentinel code is never a value the native call can return. -/
def NativeRespectsSentinel (o : NativeOutcome) : Prop :=
  (nativeToResult o).error_code ≠ timeoutCode

instance (o : NativeOutcome) : Decidable (NativeRespectsSentinel o) := by
  unfold NativeRespectsSentinel; infer_instance

/-- The observable outcome of one `Authenticate` call: the returned struct,
whether the native call was ever issued, and the caller-visible elapsed time
in nanoseconds before `Authenticate` returned. -/
structure AuthCall where
  result : AuthResult
  nativeInvoked : Bool
  elapsed_ns : Int
deriving Repr, DecidableEq

/-- Modelled from the spec: `Authenticate(reason, timeout_ns)` of
src/ee/presencedetection/auth.h, whose body is not under src/. The native
call is modelled by its eventual outcome `native` and its blocking duration
`nativeDuration_ns`. Preconditions are checked first (fail fast, no native
call); otherwise the native completion races the deadline: if the native call
completes by the deadline its outcome is propagated verbatim, else the caller
unblocks at the deadline with the timeout result while the detached native
context's eventual result is discarded. -/
def Authenticate (reason : String) (timeout_ns : Int)
    (native : NativeOutcome) (nativeDuration_ns : Nat) : AuthCall :=
  if reason = "" ∨ timeout_ns ≤ 0 then
    { result := ⟨false, preconditionMessage, preconditionCode⟩
      nativeInvoked := false
      elapsed_ns := 0 }
  else if (nativeDuration_ns : Int) ≤ timeout_ns then
    { result := nativeToResult native
      nativeInvoked := true
      elapsed_ns := (nativeDuration_ns : Int) }
  else
    { result := ⟨false, timeoutMessage, timeoutCode⟩
      nativeInvoked := true
      elapsed_ns := timeout_ns }

/-- C1: for every call with a non-empty reason and positive timeout,
`Authenticate` unblocks the caller by the deadline, whatever the native
call's duration and outcome. -/
theorem authenticate_returns_by_deadline
    (reason : String) (timeout_ns : Int)
    (native : NativeOutcome) (nativeDuration_ns : Nat)
    (hr : reason ≠ "") (ht : 0 < timeout_ns) :
    (Authenticate reason timeout_ns native nativeDuration_ns).elapsed_ns
      ≤ timeout_ns := by
  unfold Authenticate
  rcases le_or_lt (nativeDuration_ns : Int) timeout_ns with h | h
  · simp [hr, not_le.mpr ht, h]
  · simp [hr, not_le.mpr ht, not_le.mpr h]

/-- C1 witness: `Authenticate("unlock", 2s)` against a native call that
answers only after 5s still returns by the 2s deadline. -/
theorem authenticate_returns_by_deadline_witness :
    ("unlock" ≠ "" ∧ (0 : Int) < 2000000000) ∧
      (Authenticate "unlock" 2000000000 NativeOutcome.ok
        5000000000).elapsed_ns ≤ 2000000000 :=
  ⟨⟨by decide, by decide⟩,
    authenticate_returns_by_deadline "unlock" 2000000000 NativeOutcome.ok
      5000000000 (by decide) (by decide)⟩

/-- C2: when the timeout elapses before the native call completes, the
result is the component's own timeout result — `success = false`, the
reserved sentinel code and the fixed timeout message — the sentinel is
never a code a sentinel-respecting native layer can return, and the result
does not depend on the native outcome at all. -/
theorem authenticate_timeout_result
    (reason : String) (timeout_ns : Int)
    (native : NativeOutcome) (nativeDuration_ns : Nat)
    (hr : reason ≠ "") (ht : 0 < timeout_ns)
    (hd : timeout_ns < (nativeDuration_ns : Int)) :
    (Authenticate reason timeout_ns native nativeDuration_ns).result
        = ⟨false, timeoutMessage, timeoutCode⟩ ∧
      (∀ o : NativeOutcome, NativeRespectsSentinel o →
        (nativeToResult o).error_code ≠ timeoutCode) ∧
      (∀ native' : NativeOutcome,
        Authenticate reason timeout_ns native' nativeDuration_ns
          = Authenticate reason timeout_ns native nativeDuration_ns) := by
  refine ⟨?_, fun o ho => ho, fun native' => ?_⟩
  · unfold Authenticate
    simp [hr, not_le.mpr ht, not_le.mpr hd]
  · unfold Authenticate
    simp [hr, not_le.mpr ht, not_le.mpr hd]

/-- C2 witness: a 2s deadline against a 5s native call yields exactly the
timeout result. -/
theorem authenticate_timeout_result_witness :
    (Authenticate "unlock" 2000000000 (NativeOutcome.failure "denied" 7)
        5000000000).result
      = ⟨false, timeoutMessage, timeoutCode⟩ :=
  (authenticate_timeout_result "unlock" 2000000000
    (NativeOutcome.failure "denied" 7) 5000000000
    (by decide) (by decide) (by decide)).1

/-- C3: when the native call completes strictly before the deadline, the
returned `AuthResult` is the native outcome's triple, unchanged, and the
native call was indeed issued. -/
theorem authenticate_mirrors_native
    (reason : String) (timeout_ns : Int)
    (native : NativeOutcome) (nativeDuration_ns : Nat)
    (hr : reason ≠ "") (ht : 0 < timeout_ns)
    (hd : (nativeDuration_ns : Int) < timeout_ns) :
    (Authenticate reason timeout_ns native nativeDuration_ns).result
        = nativeToResult native ∧
      (Authenticate reason timeout_ns native nativeDuration_ns).nativeInvoked
        = true := by
  unfold Authenticate
  constructor <;> simp [hr, not_le.mpr ht, le_of_lt hd]

/-- C3 witness: a native failure (message "denied", code 7) completing at
1s against a 2s deadline is propagated verbatim. -/
theorem authenticate_mirrors_native_witness :
    (Authenticate "unlock" 2000000000 (NativeOutcome.failure "denied" 7)
        1000000000).result
      = ⟨false, "denied", 7⟩ :=
  (authenticate_mirrors_native "unlock" 2000000000
    (NativeOutcome.failure "denied" 7) 1000000000
    (by decide) (by decide) (by decide)).1

/-- C4: every `AuthResult` an `Authenticate` call returns satisfies the
data-model invariant: a successful result has error code 0 and an empty
error message. (The embedding returns exactly one `AuthCall` per call by
construction.) -/
theorem authenticate_result_invariant
    (reason : String) (timeout_ns : Int)
    (native : NativeOutcome) (nativeDuration_ns : Nat)
    (hs : (Authenticate reason timeout_ns native nativeDuration_ns).result.success
        = true) :
    (Authenticate reason timeout_ns native nativeDuration_ns).result.error_code
        = 0 ∧
      (Authenticate reason timeout_ns native nativeDuration_ns).result.error_msg
        = "" := by
  unfold Authenticate at *
  by_cases hpre : reason = "" ∨ timeout_ns ≤ 0
  · simp [hpre] at hs
  · by_cases hd : (nativeDuration_ns : Int) ≤ timeout_ns
    · cases native with
      | ok => simp [hpre, hd, nativeToResult]
      | failure m c => simp [hpre, hd, nativeToResult] at hs
    · simp [hpre, hd] at hs

/-- C4 witness: a successful native outcome within the deadline yields a
success result with code 0 and empty message. -/
theorem authenticate_result_invariant_witness :
    (Authenticate "unlock" 2000000000 NativeOutcome.ok
          1000000000).result.success = true ∧
      (Authenticate "unlock" 2000000000 NativeOutcome.ok
          1000000000).result.error_code = 0 ∧
      (Authenticate "unlock" 2000000000 NativeOutcome.ok
          1000000000).result.error_msg = "" :=
  ⟨by decide,
    authenticate_result_invariant "unlock" 2000000000 NativeOutcome.ok
      1000000000 (by decide)⟩

/-- C5: a call with a non-positive timeout or an empty reason fails fast
with the dedicated precondition error and never issues the native call. -/
theorem authenticate_precondition
    (reason : String) (timeout_ns : Int)
    (native : NativeOutcome) (nativeDuration_ns : Nat)
    (h : timeout_ns ≤ 0 ∨ reason = "") :
    (Authenticate reason timeout_ns native nativeDuration_ns).result
        = ⟨false, preconditionMessage, preconditionCode⟩ ∧
      (Authenticate reason timeout_ns native nativeDuration_ns).nativeInvoked
        = false := by
  unfold Authenticate
  rcases h with h | h <;> simp [h]

/-- C5 witness: a zero timeout is rejected up front; the native call is
not attempted. -/
theorem authenticate_precondition_witness :
    ((0 : Int) ≤ 0 ∨ "unlock" = "") ∧
      ((Authenticate "unlock" 0 NativeOutcome.ok 1).result
          = ⟨false, preconditionMessage, preconditionCode⟩ ∧
        (Authenticate "unlock" 0 NativeOutcome.ok 1).nativeInvoked = false) :=
  ⟨Or.inl (by decide),
    authenticate_precondition "unlock" 0 NativeOutcome.ok 1
      (Or.inl (by decide))⟩

/-- The 11 out-parameters of the ee-version `getSoftwareUpdateConfiguration`
(src/ee/tables/macos_software_update/sus.h), in declaration order, modelled
as the set of values the native SUSharedPrefs layer may fill: `none` means
the out-pointer was left unfilled (older OS version), so the flag retains
its defined default. -/
structure EEConfigFill where
  isAutomaticallyCheckForUpdatesManaged : Option Int
  isAutomaticallyCheckForUpdatesEnabled : Option Int
  isdoBackgroundDownloadManaged : Option Int
  doesBackgroundDownload : Option Int
  doesAppStoreAutoUpdates : Option Int
  doesOSXAutoUpdatesManaged : Option Int
  doesOSXAutoUpdates : Option Int
  isAutomaticConfigDataCriticalUpdateInstallManaged : Option Int
  doesAutomaticConfigDataInstall : Option Int
  doesAutomaticCriticalUpdateInstall : Option Int
  lastCheckTimestamp : Option Int
deriving Repr, DecidableEq

/-- The 7 out-parameters of the pkg-version `getSoftwareUpdateConfiguration`
(src/pkg/osquery/tables/macos_software_update/sus.h), in declaration order,
with the same unfilled-is-`none` convention. -/
structure PkgConfigFill where
  isAutomaticallyCheckForUpdatesManaged : Option Int
  isAutomaticallyCheckForUpdatesEnabled : Option Int
  doesBackgroundDownload : Option Int
  doesAppStoreAutoUpdates : Option Int
  doesOSXAutoUpdates : Option Int
  doesAutomaticCriticalUpdateInstall : Option Int
  lastCheckTimestamp : Option Int
deriving Repr, DecidableEq

/-- The named fields of an ee-version fill, as (flag name, filled value)
pairs in the header's declaration order. -/
def eeFields (f : EEConfigFill) : List (String × Option Int) :=
  [("isAutomaticallyCheckForUpdatesManaged",
      f.isAutomaticallyCheckForUpdatesManaged),
   ("isAutomaticallyCheckForUpdatesEnabled",
      f.isAutomaticallyCheckForUpdatesEnabled),
   ("isdoBackgroundDownloadManaged", f.isdoBackgroundDownloadManaged),
   ("doesBackgroundDownload", f.doesBackgroundDownload),
   ("doesAppStoreAutoUpdates", f.doesAppStoreAutoUpdates),
   ("doesOSXAutoUpdatesManaged", f.doesOSXAutoUpdatesManaged),
   ("doesOSXAutoUpdates", f.doesOSXAutoUpdates),
   ("isAutomaticConfigDataCriticalUpdateInstallManaged",
      f.isAutomaticConfigDataCriticalUpdateInstallManaged),
   ("doesAutomaticConfigDataInstall", f.doesAutomaticConfigDataInstall),
   ("doesAutomaticCriticalUpdateInstall",
      f.doesAutomaticCriticalUpdateInstall),
   ("lastCheckTimestamp", f.lastCheckTimestamp)]

/-- The named fields of a pkg-version fill, in the header's declaration
order. -/
def pkgFields (f : PkgConfigFill) : List (String × Option Int) :=
  [("isAutomaticallyCheckForUpdatesManaged",
      f.isAutomaticallyCheckForUpdatesManaged),
   ("isAutomaticallyCheckForUpdatesEnabled",
      f.isAutomaticallyCheckForUpdatesEnabled),
   ("doesBackgroundDownload", f.doesBackgroundDownload),
   ("doesAppStoreAutoUpdates", f.doesAppStoreAutoUpdates),
   ("doesOSXAutoUpdates", f.doesOSXAutoUpdates),
   ("doesAutomaticCriticalUpdateInstall",
      f.doesAutomaticCriticalUpdateInstall),
   ("lastCheckTimestamp", f.lastCheckTimestamp)]

/-- The ee-version flag/row key names, in header declaration order. -/
def eeConfigKeys : List String :=
  ["isAutomaticallyCheckForUpdatesManaged",
   "isAutomaticallyCheckForUpdatesEnabled",
   "isdoBackgroundDownloadManaged",
   "doesBackgroundDownload",
   "doesAppStoreAutoUpdates",
   "doesOSXAutoUpdatesManaged",
   "doesOSXAutoUpdates",
   "isAutomaticConfigDataCriticalUpdateInstallManaged",
   "doesAutomaticConfigDataInstall",
   "doesAutomaticCriticalUpdateInstall",
   "lastCheckTimestamp"]

/-- The pkg-version flag/row key names, in header declaration order. -/
def pkgConfigKeys : List String :=
  ["isAutomaticallyCheckForUpdatesManaged",
   "isAutomaticallyCheckForUpdatesEnabled",
   "doesBackgroundDownload",
   "doesAppStoreAutoUpdates",
   "doesOSXAutoUpdates",
   "doesAutomaticCriticalUpdateInstall",
   "lastCheckTimestamp"]

/-- Modelled from the spec: the ee-version configuration collector — the Go
caller of `getSoftwareUpdateConfiguration` is not under src/. The out-params
are initialised to the defined default 0, the native layer fills a subset
determined by the OS-version hint, and every flag is then emitted as exactly
one row (key, value rendered as a string), so the schema is stable across OS
versions. -/
def collectConfigurationEE (osVersion : Int) (native : Int → EEConfigFill) :
    List (String × String) :=
  (eeFields (native osVersion)).map (fun kv => (kv.1, toString (kv.2.getD 0)))

/-- Modelled from the spec: the pkg-version configuration collector, same
shape over the 7-flag header. -/
def collectConfigurationPkg (osVersion : Int) (native : Int → PkgConfigFill) :
    List (String × String) :=
  (pkgFields (native osVersion)).map (fun kv => (kv.1, toString (kv.2.getD 0)))

/-- The key of every emitted ee-configuration row is the corresponding
field name, independent of the fill. -/
theorem collectConfigurationEE_keys (osVersion : Int)
    (native : Int → EEConfigFill) :
    (collectConfigurationEE osVersion native).map Prod.fst = eeConfigKeys := by
  cases h : native osVersion
  simp [collectConfigurationEE, eeFields, eeConfigKeys, h]

/-- C6: for every OS-version hint and every native fill, the ee-version
collector emits exactly one row per defined flag name (the key list is the
fixed, duplicate-free header key list, so the key set is the same for every
`osVersion`), and any flag the native layer leaves unfilled is still emitted,
with its default value rendered as "0". -/
theorem collectConfiguration_schema_stable (osVersion : Int)
    (native : Int → EEConfigFill) :
    (collectConfigurationEE osVersion native).map Prod.fst = eeConfigKeys ∧
      eeConfigKeys.Nodup ∧
      (∀ k : String, (k, (none : Option Int)) ∈ eeFields (native osVersion) →
        (k, "0") ∈ collectConfigurationEE osVersion native) := by
  refine ⟨collectConfigurationEE_keys osVersion native, by decide,
    fun k hk => ?_⟩
  have := List.mem_map_of_mem
    (fun kv : String × Option Int => (kv.1, toString (kv.2.getD 0))) hk
  simpa [collectConfigurationEE] using this

/-- C6 witness: a native layer that fills nothing (an old OS version) still
produces a row for `doesOSXAutoUpdatesManaged`, with the default value "0". -/
theorem collectConfiguration_schema_stable_witness :
    (("doesOSXAutoUpdatesManaged", (none : Option Int))
        ∈ eeFields ((fun _ => EEConfigFill.mk none none none none none none
            none none none none none) (10 : Int))) ∧
      ("doesOSXAutoUpdatesManaged", "0")
        ∈ collectConfigurationEE 10
            (fun _ => EEConfigFill.mk none none none none none none none none
              none none none) :=
  ⟨by decide,
    (collectConfiguration_schema_stable 10
      (fun _ => EEConfigFill.mk none none none none none none none none none
        none none)).2.2 "doesOSXAutoUpdatesManaged" (by decide)⟩

/-- The key of every emitted pkg-configuration row is the corresponding
field name, independent of the fill. -/
theorem collectConfigurationPkg_keys (osVersion : Int)
    (native : Int → PkgConfigFill) :
    (collectConfigurationPkg osVersion native).map Prod.fst = pkgConfigKeys := by
  cases h : native osVersion
  simp [collectConfigurationPkg, pkgFields, pkgConfigKeys, h]

/-- C10: the pkg-version header fills 7 out-parameters and the ee-version
header 11; every pkg flag name is also an ee flag name, the inclusion is
strict, and for every OS-version hint the row key set the pkg collector
emits is a strict subset of the one the ee collector emits — the four extra
ee keys being `isdoBackgroundDownloadManaged`, `doesOSXAutoUpdatesManaged`,
`isAutomaticConfigDataCriticalUpdateInstallManaged` and
`doesAutomaticConfigDataInstall`. -/
theorem pkg_config_keys_strict_subset_of_ee (osVersion : Int)
    (nativePkg : Int → PkgConfigFill) (nativeEE : Int → EEConfigFill) :
    pkgConfigKeys.length = 7 ∧ eeConfigKeys.length = 11 ∧
      (∀ k, k ∈ (collectConfigurationPkg osVersion nativePkg).map Prod.fst →
        k ∈ (collectConfigurationEE osVersion nativeEE).map Prod.fst) ∧
      (∃ k, k ∈ (collectConfigurationEE osVersion nativeEE).map Prod.fst ∧
        k ∉ (collectConfigurationPkg osVersion nativePkg).map Prod.fst) ∧
      eeConfigKeys.filter (fun k => !(pkgConfigKeys.contains k))
        = ["isdoBackgroundDownloadManaged", "doesOSXAutoUpdatesManaged",
           "isAutomaticConfigDataCriticalUpdateInstallManaged",
           "doesAutomaticConfigDataInstall"] := by
  rw [collectConfigurationPkg_keys osVersion nativePkg,
    collectConfigurationEE_keys osVersion nativeEE]
  refine ⟨by decide, by decide, ?_, ?_, by decide⟩
  · intro k hk
    fin_cases hk <;> decide
  · exact ⟨"isdoBackgroundDownloadManaged", by decide, by decide⟩

/-- The pkg-version native product-scan callback surface, from
src/pkg/osquery/tables/macos_software_update/sus.h: `productsFound(count)`,
`productKeyValueFound(sequenceId, key, value)` and
`productNestedKeyValueFound(sequenceId, parentKey, key, value)`. -/
inductive ProductEvent where
  | productsFound (count : Nat) : ProductEvent
  | productKeyValueFound (sequenceId : Nat) (key value : String) : ProductEvent
  | productNestedKeyValueFound (sequenceId : Nat)
      (parentKey key value : String) : ProductEvent
deriving Repr, DecidableEq

/-- Modelled from the spec: the fixed separator used to join parent and
child keys when flattening one level of nesting (the spec's example uses
"."); the Go collector body is not under src/. -/
def nestedKeySeparator : String := "."

/-- Modelled from the spec: the path-qualified key emitted for a nested
(parentKey, key) pair — parent and child joined by the fixed separator;
the Go collector body is not under src/. -/
def flattenNestedKey (parentKey key : String) : String :=
  parentKey ++ nestedKeySeparator ++ key

/-- Modelled from the spec: the row (if any) the pkg-version product
collector pushes to the RowSink for one native callback: the count
announcement produces no row, a flat field is passed through, and a nested
field is emitted under its path-qualified key; the Go collector body is
not under src/. -/
def rowOfProductEvent : ProductEvent → Option (Nat × String × String)
  | ProductEvent.productsFound _ => none
  | ProductEvent.productKeyValueFound s k v => some (s, k, v)
  | ProductEvent.productNestedKeyValueFound s p k v =>
      some (s, flattenNestedKey p k, v)

/-- C7 counterexample: at sequenceId 1, the distinct nested pairs
("a", "b.c") and ("a.b", "c") — four pairwise-distinct native key strings,
no collision in the native data — are emitted under the same flattened row
key "a.b.c". -/
theorem flatten_counterexample :
    rowOfProductEvent (ProductEvent.productNestedKeyValueFound 1 "a" "b.c" "42")
        = rowOfProductEvent
            (ProductEvent.productNestedKeyValueFound 1 "a.b" "c" "42") ∧
      (("a" : String), ("b.c" : String)) ≠ (("a.b" : String), ("c" : String)) ∧
      ("a" : String) ≠ "a.b" ∧ ("b.c" : String) ≠ "c" :=
  ⟨rfl, by decide, by decide, by decide⟩

/-- A list split on a distinguished element absent from both left parts is
unique: `l₁ ++ s :: m₁ = l₂ ++ s :: m₂` forces `l₁ = l₂` and `m₁ = m₂`. -/
theorem append_cons_sep_inj {α : Type} (s : α) :
    ∀ l₁ l₂ m₁ m₂ : List α, s ∉ l₁ → s ∉ l₂ →
      l₁ ++ s :: m₁ = l₂ ++ s :: m₂ → l₁ = l₂ ∧ m₁ = m₂ := by
  intro l₁
  induction l₁ with
  | nil =>
    intro l₂ m₁ m₂ _ h₂ heq
    cases l₂ with
    | nil => simpa using heq
    | cons b t =>
      exfalso
      apply h₂
      simp only [List.nil_append, List.cons_append, List.cons.injEq] at heq
      rw [heq.1]
      exact List.mem_cons_self b t
  | cons a t ih =>
    intro l₂ m₁ m₂ h₁ h₂ heq
    cases l₂ with
    | nil =>
      exfalso
      apply h₁
      simp only [List.nil_append, List.cons_append, List.cons.injEq] at heq
      rw [← heq.1]
      exact List.mem_cons_self a t
    | cons b t₂ =>
      simp only [List.cons_append, List.cons.injEq] at heq
      obtain ⟨hab, htail⟩ := heq
      have h₁' : s ∉ t := fun hm => h₁ (List.mem_cons_of_mem a hm)
      have h₂' : s ∉ t₂ := fun hm => h₂ (List.mem_cons_of_mem b hm)
      obtain ⟨hts, hms⟩ := ih t₂ m₁ m₂ h₁' h₂' htail
      exact ⟨by rw [hab, hts], hms⟩

/-- C7 amended: for any sequenceId, two distinct nested (parentKey, key)
pairs whose parent keys are free of the separator character are emitted
under distinct flattened row keys. -/
theorem flatten_injective_of_sep_free_parents
    (sequenceId : Nat) (p₁ k₁ p₂ k₂ v₁ v₂ : String)
    (h₁ : ('.' : Char) ∉ p₁.data) (h₂ : ('.' : Char) ∉ p₂.data)
    (hne : (p₁, k₁) ≠ (p₂, k₂)) :
    (rowOfProductEvent
        (ProductEvent.productNestedKeyValueFound sequenceId p₁ k₁ v₁)).map
          (fun r => r.2.1)
      ≠ (rowOfProductEvent
          (ProductEvent.productNestedKeyValueFound sequenceId p₂ k₂ v₂)).map
            (fun r => r.2.1) := by
  simp only [rowOfProductEvent, Option.map_some]
  intro heq
  have hflat : flattenNestedKey p₁ k₁ = flattenNestedKey p₂ k₂ :=
    Option.some.inj heq
  have hdata : p₁.data ++ ('.' : Char) :: k₁.data
      = p₂.data ++ ('.' : Char) :: k₂.data := by
    have := congrArg String.data hflat
    simpa [flattenNestedKey, nestedKeySeparator, String.data_append] using this
  obtain ⟨hp, hk⟩ :=
    append_cons_sep_inj ('.' : Char) p₁.data p₂.data k₁.data k₂.data h₁ h₂ hdata
  exact hne (by rw [String.ext hp, String.ext hk])

/-- C7 amended witness: separator-free parents "a" and "b" with any child
keys give distinct flattened keys. -/
theorem flatten_injective_of_sep_free_parents_witness :
    (('.' : Char) ∉ "a".data ∧ ('.' : Char) ∉ "b".data ∧
        (("a" : String), ("x" : String)) ≠ (("b" : String), ("x" : String))) ∧
      (rowOfProductEvent
          (ProductEvent.productNestedKeyValueFound 0 "a" "x" "1")).map
            (fun r => r.2.1)
        ≠ (rowOfProductEvent
            (ProductEvent.productNestedKeyValueFound 0 "b" "x" "1")).map
              (fun r => r.2.1) :=
  ⟨⟨by decide, by decide, by decide⟩,
    flatten_injective_of_sep_free_parents 0 "a" "x" "b" "x" "1" "1"
      (by decide) (by decide) (by decide)⟩

/-- One step of a native product scan as the collector observes it: either
a callback is delivered, or the native side fails with a diagnostic and
delivers nothing further. -/
inductive ScanStep where
  | event (e : ProductEvent) : ScanStep
  | fail (msg : String) : ScanStep
deriving Repr, DecidableEq

/-- Modelled from the spec: running the pkg-version product collector over
a native scan trace — rows are pushed to the RowSink in callback order as
they arrive; the first native failure aborts the remaining stream and is
surfaced as the single terminal error, and rows already pushed stand; the
Go collector body is not under src/. -/
def runScan : List ScanStep → List (Nat × String × String) × Option String
  | [] => ([], none)
  | ScanStep.fail msg :: _ => ([], some msg)
  | ScanStep.event e :: rest =>
      let r := runScan rest
      ((rowOfProductEvent e).toList ++ r.1, r.2)

/-- C8: when the native scan fails after delivering the callbacks `pre`
(with callbacks `post` never delivered), the collector surfaces exactly the
one terminal error, the rows pushed are exactly those of the delivered
prefix (nothing further is emitted, nothing already pushed is retracted),
and that row sequence is a prefix of what the successful scan `pre ++ post`
would have produced. -/
theorem runScan_failure_semantics (pre post : List ProductEvent) (msg : String) :
    (runScan (pre.map ScanStep.event
        ++ ScanStep.fail msg :: post.map ScanStep.event)).2 = some msg ∧
      (runScan (pre.map ScanStep.event
          ++ ScanStep.fail msg :: post.map ScanStep.event)).1
        = (runScan (pre.map ScanStep.event)).1 ∧
      (∃ rest, (runScan (pre.map ScanStep.event
            ++ ScanStep.fail msg :: post.map ScanStep.event)).1 ++ rest
          = (runScan ((pre ++ post).map ScanStep.event)).1) := by
  induction pre with
  | nil =>
    refine ⟨rfl, rfl, ⟨(runScan (post.map ScanStep.event)).1, ?_⟩⟩
    simp [runScan]
  | cons e t ih =>
    obtain ⟨h₂, h₁, rest, hrest⟩ := ih
    refine ⟨by simpa [runScan] using h₂, by simp [runScan, h₁], ⟨rest, ?_⟩⟩
    simp only [List.map_cons, List.cons_append, runScan, List.append_assoc]
    exact congrArg (fun l => (rowOfProductEvent e).toList ++ l) hrest

/-- The ee-version native update callback surface, from
src/ee/tables/macos_software_update/sus.h: only `updatesFound(count)` and
`updateKeyValueFound(sequenceId, key, value)` are declared — there is no
nested-pair callback in that version. -/
inductive EEUpdateEvent where
  | updatesFound (count : Nat) : EEUpdateEvent
  | updateKeyValueFound (sequenceId : Nat) (key value : String) : EEUpdateEvent
deriving Repr, DecidableEq

/-- Modelled from the spec: the row (if any) the ee-version collector for
`getAvailableProducts` / `getRecommendedUpdates` pushes for one native
callback — the count announcement produces no row and a key-value callback
is passed through; the Go collector body is not under src/. -/
def rowOfEEUpdateEvent : EEUpdateEvent → Option (Nat × String × String)
  | EEUpdateEvent.updatesFound _ => none
  | EEUpdateEvent.updateKeyValueFound s k v => some (s, k, v)

/-- C9: every row the ee-version collector emits comes from an
`updateKeyValueFound(sequenceId, key, value)` callback, and its key is that
callback's key string verbatim — a flat, single-segment key, never a
path-qualified join, since no nested callback exists in the ee version. -/
theorem ee_rows_flat (e : EEUpdateEvent) (row : Nat × String × String)
    (h : rowOfEEUpdateEvent e = some row) :
    e = EEUpdateEvent.updateKeyValueFound row.1 row.2.1 row.2.2 := by
  cases e with
  | updatesFound n => simp [rowOfEEUpdateEvent] at h
  | updateKeyValueFound s k v =>
    simp only [rowOfEEUpdateEvent, Option.some.injEq] at h
    rw [← h]

/-- C9 witness: the row emitted for `updateKeyValueFound(3, "name", "A")`
carries the native key "name" unchanged. -/
theorem ee_rows_flat_witness :
    rowOfEEUpdateEvent (EEUpdateEvent.updateKeyValueFound 3 "name" "A")
        = some (3, "name", "A") ∧
      EEUpdateEvent.updateKeyValueFound 3 "name" "A"
        = EEUpdateEvent.updateKeyValueFound 3 "name" "A" :=
  ⟨rfl, ee_rows_flat (EEUpdateEvent.updateKeyValueFound 3 "name" "A")
    (3, "name", "A") rfl⟩
